import Mathlib

/-!
# Verification of the gaedriver deployment-lifecycle logic

Shallow embedding of `src/py/src/gaedriver/gaedriver.py` (a Python 2 test
harness for App Engine apps) and proofs about its core logic:

* the environment classifier `is_cluster_appserver`;
* `Config.__init__` field derivation (partition/domain/display id,
  application hostname, admin-console hostname);
* the argv builder `run_appcfg_with_auth`;
* the update-with-rollback retry loop `update_app`, with the external
  deployment tool abstracted as an oracle (exactly as the repository's own
  unit tests do by monkey-patching `run_appcfg_with_auth`);
* the backup/patch/restore file operations on `backends.yaml` and
  `app.yaml`, over an explicit file-system state.

Conventions of the embedding: Python `None`/absent string options are the
empty string (both are falsy and the constructor normalises them to `''`);
Python exceptions become `Except PyErr`; spawning an external process is
represented by returning the argument vector (and stdin payload) that would
be handed to `subprocess.Popen`, so an `Except.error` result means no
process was spawned.
-/

set_option autoImplicit false

namespace Gaedriver

/-- Python exceptions raised by the module: `ValueError`, `TypeError` and
the module's own `AppcfgError`. -/
inductive PyErr where
  | valueError (msg : String)
  | typeError (msg : String)
  | appcfgError (msg : String)
  deriving Repr, DecidableEq

/-- A Python value as far as the classifier's dynamic type test is
concerned: a string, an int, or `None`. -/
inductive PyVal where
  | str (s : String)
  | int (n : Int)
  | none
  deriving Repr, DecidableEq

/-- Python 2 `repr` of the value's type, used in `TypeError` messages. -/
def PyVal.typeName : PyVal → String
  | .str _ => "<type 'str'>"
  | .int _ => "<type 'int'>"
  | .none => "<type 'NoneType'>"

/-- Tests whether `pat` occurs as a contiguous run inside the list. -/
def isSubList (pat : List Char) : List Char → Bool
  | [] => pat.isEmpty
  | c :: rest => pat.isPrefixOf (c :: rest) || isSubList pat rest

/-- Python `pattern in s` (substring containment), e.g. `'Error' in stdout`. -/
def containsSub (s pat : String) : Bool :=
  isSubList pat.data s.data

/-- Python `s.startswith(pre)`. -/
def pyStartsWith (s pre : String) : Bool :=
  pre.data.isPrefixOf s.data

/-- Python `s.endswith(suf)`. -/
def pyEndsWith (s suf : String) : Bool :=
  suf.data.isSuffixOf s.data

/-- Python `s.split(sep)` for a single-character separator, on character
lists: split at every occurrence of the separator. -/
def splitChar (sep : Char) : List Char → List (List Char)
  | [] => [[]]
  | c :: rest =>
    if c = sep then [] :: splitChar sep rest
    else
      match splitChar sep rest with
      | [] => [[c]]
      | l :: ls => (c :: l) :: ls

/-- Python `s.split(sep)` for a single-character separator. -/
def pySplitOn (s : String) (sep : Char) : List String :=
  (splitChar sep s.data).map (fun l => ⟨l⟩)

/-- Python `config.username.split('@')[0]`: the short username (the portion of
the email before `@`; `split` never returns an empty list, so the `[0]`
indexing is total). -/
def shortUserOf (username : String) : String :=
  (pySplitOn username '@').headD ""

/-- Model of `os.path.join` for the relative one-component joins the module performs
(posixpath semantics). -/
def pathJoin (a b : String) : String :=
  if pyStartsWith b "/" then b
  else if a = "" || pyEndsWith a "/" then a ++ b
  else a ++ "/" ++ b

/-- Constant `MAX_ROLLBACK_RETRIES`: default retry budget of `update_app`. -/
def MAX_ROLLBACK_RETRIES : Nat := 2

/-- Constant `APP_YAML_BACKUP`: backup-file name for the patched `app.yaml`. -/
def APP_YAML_BACKUP : String := "app.yaml.e2e"

/-- Constant `BACKENDS_YAML_BACKUP`: backup-file name for a pre-existing
`backends.yaml`. -/
def BACKENDS_YAML_BACKUP : String := "backends.yaml.e2e"

/-- Constant `NO_ADMIN_CONSOLE_ON_SDK`: sentinel value of `config.ac_hostname` for
tests against the SDK. -/
def NO_ADMIN_CONSOLE_ON_SDK : String := "ADMIN_CONSOLE_NOT_AVAILABLE_FOR_SDK"

/-- Constant `DEFAULT_BACKEND_INSTANCES`. -/
def DEFAULT_BACKEND_INSTANCES : Nat := 2

/-- First literal run of `ROLLBACK_ERR_MESSAGE` (the text between the
leading `.*` and the middle `.*` of the regex), with the short username
interpolated for `%s`. -/
def rollbackMsgPart1 (shortUsername : String) : String :=
  "Another transaction by user " ++ shortUsername ++
    " is already in progress for "

/-- Second literal run of `ROLLBACK_ERR_MESSAGE` (the text between the
middle `.*` and the trailing `.*` of the regex). -/
def rollbackMsgPart2 : String :=
  " That user can undo the transaction with "

/-- Suffix of `l` after the first occurrence of `pat` in `l`, if any. -/
def dropAfterFirst (pat : List Char) : List Char → Option (List Char)
  | [] => if pat.isEmpty then some [] else Option.none
  | c :: rest =>
    if pat.isPrefixOf (c :: rest) then some ((c :: rest).drop pat.length)
    else dropAfterFirst pat rest

/-- Model of `re.match(ROLLBACK_ERR_MESSAGE % short_username, stdout, re.DOTALL)`
viewed as a Bool.  The pattern is `.*P1.*P2.*` where `P1`/`P2` are the two
literal runs above; under `re.DOTALL` the dots match every character, so
for a metacharacter-free username the regex matches exactly when `stdout`
contains `P1` followed (at or after its end) by `P2`. -/
def conflictMatch (shortUsername stdout : String) : Bool :=
  match dropAfterFirst (rollbackMsgPart1 shortUsername).data stdout.data with
  | Option.none => false
  | some suffix => isSubList rollbackMsgPart2.data suffix

/-- Function `is_cluster_appserver`: `True` iff the hostname does not start with
`"localhost"`; `TypeError` for non-string input. -/
def is_cluster_appserver : PyVal → Except PyErr Bool
  | .str s => .ok (!pyStartsWith s "localhost")
  | v => .error (.typeError
      ("\"cluster_hostname\" must be a string, not " ++ v.typeName))

/-- The `Config` object after `__init__` has run: raw inputs plus the
derived fields. -/
structure Config where
  app_id : String
  cluster_hostname : String
  backend_id : String
  backend_instances : Nat
  partition : String
  domain : String
  display_app_id : String
  app_hostname : String
  ac_hostname : String
  sdk_dir : String
  app_dir : String
  username : String
  password : String
  appcfg_flags : String
  deriving Repr, DecidableEq

/-- Python `getattr(config, attr)` for the string attributes the module's
required-attribute checks name. -/
def Config.getAttr (c : Config) (attr : String) : String :=
  if attr = "app_id" then c.app_id
  else if attr = "cluster_hostname" then c.cluster_hostname
  else if attr = "backend_id" then c.backend_id
  else if attr = "sdk_dir" then c.sdk_dir
  else if attr = "app_dir" then c.app_dir
  else if attr = "username" then c.username
  else if attr = "password" then c.password
  else if attr = "ac_hostname" then c.ac_hostname
  else if attr = "app_hostname" then c.app_hostname
  else if attr = "appcfg_flags" then c.appcfg_flags
  else ""

/-- Function `_check_required_config_attr`: raise `ValueError` naming the first
required attribute with a falsy (empty) value. -/
def check_required_config_attr (c : Config) :
    List String → Except PyErr Unit
  | [] => .ok ()
  | attr :: rest =>
    if c.getAttr attr = "" then
      .error (.valueError ("\"config." ++ attr ++ "\" has to be set."))
    else check_required_config_attr c rest

/-- Constructor `Config.__init__`.  All optional parameters are passed explicitly,
with `""` (resp. `0`) standing for Python `None`; both are falsy, and the
constructor normalises falsy values to `''` (resp. leaves the count `0`
untouched before defaulting happens later in `_create_backends_yaml`).
The tuple unpacking of `str.split` raises `ValueError` when the separator
occurs more than once. -/
def Config.init (app_id cluster_hostname backend_id : String)
    (backend_instances : Nat)
    (sdk_dir app_dir username password ac_hostname appcfg_flags : String) :
    Except PyErr Config :=
  match (if containsSub app_id "~" then
          match pySplitOn app_id '~' with
          | [a, b] => Except.ok (a, b)
          | _ => Except.error (.valueError "too many values to unpack")
        else Except.ok ("", app_id) : Except PyErr (String × String)) with
  | .error e => .error e
  | .ok (partition, display1) =>
    match (if containsSub display1 ":" then
            match pySplitOn display1 ':' with
            | [a, b] => Except.ok (a, b)
            | _ => Except.error (.valueError "too many values to unpack")
          else Except.ok ("", display1) : Except PyErr (String × String)) with
    | .error e => .error e
    | .ok (domain, display_app_id) =>
      match is_cluster_appserver (.str cluster_hostname) with
      | .error e => .error e
      | .ok remote =>
        .ok {
          app_id := app_id
          cluster_hostname := cluster_hostname
          backend_id := backend_id
          backend_instances := backend_instances
          partition := partition
          domain := domain
          display_app_id := display_app_id
          app_hostname :=
            if remote then
              if backend_id = "" then
                display_app_id ++ "." ++ cluster_hostname
              else
                backend_id ++ "." ++ display_app_id ++ "." ++ cluster_hostname
            else cluster_hostname
          ac_hostname :=
            if remote then
              if ac_hostname ≠ "" then ac_hostname
              else "appengine.google.com"
            else NO_ADMIN_CONSOLE_ON_SDK
          sdk_dir := sdk_dir
          app_dir := app_dir
          username := username
          password := password
          appcfg_flags := appcfg_flags }

/-- Function `run_appcfg_with_auth`, up to (and including) the construction of the
`subprocess.Popen` call: the `.ok` value is the pair (argument vector,
stdin payload), the stdin payload being `config.password` streamed to the
child (`p.communicate(config.password)`).  An `.error` result means the
function raised before any process was spawned.  `options`/`args` are the
Python optional list parameters (`Option.none` = Python `None`); the
backend branch evaluates `config.app_dir in args`, which raises
`TypeError` when `args` is `None`. -/
def run_appcfg_with_auth (c : Config) (action : String)
    (options args : Option (List String)) :
    Except PyErr (List String × String) :=
  match check_required_config_attr c
    ["app_dir", "sdk_dir", "username", "password"] with
  | .error e => .error e
  | .ok _ =>
    let argv := [pathJoin c.sdk_dir "appcfg.py", "--no_cookies",
      "--email=" ++ c.username, "--passin"]
    let argv := argv ++
      (if c.app_id ≠ "" then ["--application=" ++ c.app_id] else [])
    let argv := argv ++
      (if c.appcfg_flags ≠ "" then pySplitOn c.appcfg_flags ' ' else [])
    let argv := argv ++
      (if c.ac_hostname ≠ "" then ["--server=" ++ c.ac_hostname] else [])
    let argv := argv ++
      (match options with
       | some l => if l ≠ [] then l else []
       | Option.none => [])
    if c.backend_id = "" then
      -- For appcfg calls to frontends the action is followed by the
      -- arguments.
      .ok (argv ++ [action] ++
        (match args with
         | some l => if l ≠ [] then l else []
         | Option.none => []), c.password)
    else
      -- For appcfg calls to backends the action is following the
      -- arguments.
      match args with
      | Option.none =>
        .error (.typeError "argument of type 'NoneType' is not iterable")
      | some l =>
        let l' := if l.contains c.app_dir then l.erase c.app_dir else l
        .ok (argv ++ ["backends", c.app_dir, action] ++
          (if l' ≠ [] then l' else []), c.password)

/-- One (stdout, stderr) reply of the external deployment tool.  In
`update_app` the tool is abstracted as an oracle mapping the running
invocation index, the action, and the positional arguments to its output —
exactly how the repository's unit tests mock `run_appcfg_with_auth`. -/
abbrev AppcfgOracle := Nat → String → List String → String × String

/-- The `while rollback_retries > 0 and not success` loop of `update_app`.
`k` is the number of tool invocations made so far; `last` is the pair the
Python locals `(stdout, stderr)` hold on loop entry (`None` before the
first iteration).  Returns the Python result (`.ok` = fall through to
`return stdout, stderr`, `.error` = `raise AppcfgError`) together with the
list of actions passed to the tool, in invocation order. -/
def update_loop (shortUsername app_dir backend_id : String)
    (oracle : AppcfgOracle) :
    Nat → Nat → Option String × Option String →
    Except PyErr (Option String × Option String) × List String
  | 0, _, last => (.ok last, [])
  | retries + 1, k, _ =>
    let upd := oracle k "update" [app_dir]
    if conflictMatch shortUsername upd.1 then
      let rbArgs := if backend_id = "" then [app_dir] else [backend_id]
      let rb := oracle (k + 1) "rollback" rbArgs
      if containsSub rb.1 "Error" then
        (.error (.appcfgError ("Could not rollback: " ++ rb.1)),
         ["update", "rollback"])
      else
        let rest := update_loop shortUsername app_dir backend_id oracle
          retries (k + 2) (some rb.1, some rb.2)
        (rest.1, "update" :: "rollback" :: rest.2)
    else if containsSub upd.1 "Error" then
      (.error (.appcfgError ("Could not update : " ++ upd.1)), ["update"])
    else
      (.ok (some upd.1, some upd.2), ["update"])

/-- Function `update_app`, with the deployment tool (`run_appcfg_with_auth`) mocked
as an oracle, exactly as the repository's unit tests do.  Returns the
result together with the trace of tool actions invoked; a validation
failure invokes no tool at all (empty trace). -/
def update_app (c : Config) (oracle : AppcfgOracle)
    (rollback_retries : Nat) :
    Except PyErr (Option String × Option String) × List String :=
  match check_required_config_attr c ["app_dir", "username"] with
  | .error e => (.error e, [])
  | .ok _ =>
    update_loop (shortUserOf c.username) c.app_dir c.backend_id oracle
      rollback_retries 0 (Option.none, Option.none)

/-- Method `DevAppServerThread._get_argv`: the argument vector for
`dev_appserver`, or `ValueError` when the configured application hostname
holds more than one colon. -/
def get_argv (c : Config) (options : List String)
    (clear_datastore : Bool) : Except PyErr (List String) :=
  if (c.app_hostname.data.count ':') > 1 then
    .error (.valueError ("Expected at most 1 colon in " ++
      "config.app_hostname: \"" ++ c.app_hostname ++ "\""))
  else
    let parts := pySplitOn c.app_hostname ':'
    let port_option :=
      if parts.length = 1 then ""
      else "--port=" ++ ((parts.get? 1).getD "")
    .ok ([pathJoin c.sdk_dir "dev_appserver.py", "--skip_sdk_update_check",
      port_option] ++
      (if clear_datastore then ["--clear_datastore"] else []) ++
      options ++ [c.app_dir])

/-- Method `DevAppServerThread.run`, up to the `subprocess.Popen` call: the `.ok`
value is the argument vector the local-server process is spawned with; an
`.error` result means `_get_argv` raised and no process was spawned. -/
def devAppServerRun (c : Config) (options : List String)
    (clear_datastore : Bool) : Except PyErr (List String) :=
  get_argv c options clear_datastore

/-- File-system state: association list from path to file content, later
writes shadowing earlier ones. -/
def FS : Type := List (String × String)

/-- Content of the file at `p`, if it exists. -/
def FS.read : FS → String → Option String
  | [], _ => Option.none
  | (q, content) :: rest, p =>
    if q = p then some content else FS.read rest p

/-- Model of `os.path.exists`. -/
def FS.pathExists (fs : FS) (p : String) : Bool :=
  (fs.read p).isSome

/-- Write (create or overwrite) the file at `p`.  `shutil.copy`/`copy2`
from `src` to `dst` is `fs.write dst content-of-src`. -/
def FS.write (fs : FS) (p content : String) : FS :=
  (p, content) :: fs

/-- Model of `os.remove`. -/
def FS.remove (fs : FS) (p : String) : FS :=
  fs.filter (fun e => e.1 ≠ p)

/-- Function `_create_backends_yaml`: back up an existing `backends.yaml` (via
`shutil.copy2`), then write a fresh one generated from the config; the
instance count defaults to `DEFAULT_BACKEND_INSTANCES` when unset
(falsy). -/
def create_backends_yaml (c : Config) (fs : FS) : FS :=
  let backends_yaml_path := pathJoin c.app_dir "backends.yaml"
  let backends_yaml_backup_path := pathJoin c.app_dir BACKENDS_YAML_BACKUP
  let fs :=
    match fs.read backends_yaml_path with
    | some content => fs.write backends_yaml_backup_path content
    | Option.none => fs
  let instances :=
    if c.backend_instances ≠ 0 then c.backend_instances
    else DEFAULT_BACKEND_INSTANCES
  fs.write backends_yaml_path
    (String.intercalate "\n"
      ["backends:", "- name: " ++ c.backend_id,
       "  options: public, dynamic", "  instances: " ++ toString instances])

/-- Function `_restore_backends_yaml`: if the backup exists, copy it back over the
active path (`shutil.copy2`) and delete the backup; no-op otherwise. -/
def restore_backends_yaml (c : Config) (fs : FS) : FS :=
  let backends_yaml_path := pathJoin c.app_dir "backends.yaml"
  let backends_yaml_backup_path := pathJoin c.app_dir BACKENDS_YAML_BACKUP
  match fs.read backends_yaml_backup_path with
  | some content =>
    (fs.write backends_yaml_path content).remove backends_yaml_backup_path
  | Option.none => fs

/-- Python file iteration: split a character stream into lines, each
retaining its trailing `'\n'` (the final line may lack one). -/
def pySplitLines : List Char → List (List Char)
  | [] => []
  | c :: rest =>
    if c = '\n' then ['\n'] :: pySplitLines rest
    else
      match pySplitLines rest with
      | [] => [[c]]
      | l :: ls => (c :: l) :: ls

/-- Python `line.strip(os.linesep)` with `os.linesep = '\n'`: drop newline
characters from both ends of the line. -/
def stripNL (l : List Char) : List Char :=
  ((l.dropWhile (fun c => c = '\n')).reverse.dropWhile
    (fun c => c = '\n')).reverse

/-- The body of the `fileinput` loop of `_replace_app_yaml`, on one line
(with terminator): a line starting with `application:` is replaced by
`'application: %s' % app_id`, any other line is stripped of newlines; the
subsequent `print` appends `'\n'` in both cases. -/
def patchLineChars (app_id line : List Char) : List Char :=
  (if ("application:".data).isPrefixOf line then
    ("application: ".data) ++ app_id
  else stripNL line) ++ ['\n']

/-- The whole in-place rewrite `_replace_app_yaml` performs on the file
content. -/
def patchAppYaml (app_id content : String) : String :=
  ⟨((pySplitLines content.data).map (patchLineChars app_id.data)).flatten⟩

/-- Method `DevAppServerThread._replace_app_yaml`: copy `app.yaml` to the backup
path, then rewrite `app.yaml` in place via the `fileinput` loop.  `none`
abstracts the `IOError` raised when `app.yaml` does not exist. -/
def replace_app_yaml (c : Config) (fs : FS) : Option FS :=
  let app_yaml_path := pathJoin c.app_dir "app.yaml"
  let app_yaml_bak_path := pathJoin c.app_dir APP_YAML_BACKUP
  match fs.read app_yaml_path with
  | Option.none => Option.none
  | some content =>
    some (((fs.write app_yaml_bak_path content).write app_yaml_path
      (patchAppYaml c.app_id content)))

/-- Method `DevAppServerThread._restore_app_yaml`: `os.remove(app.yaml)`, copy
the backup back, `os.remove(backup)`.  `none` abstracts the exceptions
raised when either file is missing. -/
def restore_app_yaml (c : Config) (fs : FS) : Option FS :=
  let app_yaml_path := pathJoin c.app_dir "app.yaml"
  let app_yaml_bak_path := pathJoin c.app_dir APP_YAML_BACKUP
  if fs.pathExists app_yaml_path then
    match fs.read app_yaml_bak_path with
    | Option.none => Option.none
    | some content =>
      some ((((fs.remove app_yaml_path).write app_yaml_path
        content)).remove app_yaml_bak_path)
  else Option.none

/-- A descriptor file assembled from terminator-free lines, each followed
by `'\n'`. -/
def mkContent (lines : List String) : String :=
  ⟨(lines.map (fun l => l.data ++ ['\n'])).flatten⟩

/-- The line-level effect of the patch, on terminator-free lines: only the
`application:` declaration line changes. -/
def pyPatchLine (app_id line : String) : String :=
  if ("application:".data).isPrefixOf line.data then
    "application: " ++ app_id
  else line

/-- A remote frontend configuration used by the concrete witnesses. -/
def sampleConfig : Config where
  app_id := "test-app"
  cluster_hostname := "appspot.com"
  backend_id := ""
  backend_instances := 0
  partition := ""
  domain := ""
  display_app_id := "test-app"
  app_hostname := "test-app.appspot.com"
  ac_hostname := "appengine.google.com"
  sdk_dir := "/sdk"
  app_dir := "/app"
  username := "alice@example.com"
  password := "secret"
  appcfg_flags := ""

/-- Variant of `sampleConfig` with a backend under test. -/
def sampleBackendConfig : Config :=
  { sampleConfig with
      backend_id := "b1", app_hostname := "b1.test-app.appspot.com" }

/-- A local (SDK) configuration used by the concrete witnesses. -/
def sampleLocalConfig : Config :=
  { sampleConfig with
      cluster_hostname := "localhost:8080", app_hostname := "localhost:8080",
      ac_hostname := NO_ADMIN_CONSOLE_ON_SDK }

/-- Variant of `sampleLocalConfig` with a malformed application hostname (two
colons). -/
def sampleBadHostConfig : Config :=
  { sampleLocalConfig with app_hostname := "localhost:80:90" }

/-- A tool output exhibiting the rollback-conflict signature for the short
username `alice`. -/
def conflictText : String :=
  "Another transaction by user alice is already in progress for app. " ++
    "That user can undo the transaction with appcfg rollback."

/-- Tool mock: every update hits the conflict, every rollback succeeds. -/
def sampleConflictOracle : AppcfgOracle := fun _ action _ =>
  if action = "update" then (conflictText, "") else ("rollback done", "")

/-- Tool mock: every update hits the conflict, rollback reports `Error`. -/
def sampleRollbackErrorOracle : AppcfgOracle := fun _ action _ =>
  if action = "update" then (conflictText, "")
  else ("Error: rollback failed", "")

/-- Tool mock: update fails with a generic non-conflict `Error`. -/
def sampleUpdateErrorOracle : AppcfgOracle := fun _ _ _ =>
  ("Error: update failed", "")

/-- The configuration `Config.__init__` derives for app id `"foo"`,
cluster `"example.com"`, backend `"b1"` and all other inputs absent. -/
def sampleDerivedRemote : Config where
  app_id := "foo"
  cluster_hostname := "example.com"
  backend_id := "b1"
  backend_instances := 0
  partition := ""
  domain := ""
  display_app_id := "foo"
  app_hostname := "b1.foo.example.com"
  ac_hostname := "appengine.google.com"
  sdk_dir := ""
  app_dir := ""
  username := ""
  password := ""
  appcfg_flags := ""

/-- The configuration `Config.__init__` derives for app id `"foo"`,
cluster `"localhost:8080"` and all other inputs absent. -/
def sampleDerivedLocal : Config where
  app_id := "foo"
  cluster_hostname := "localhost:8080"
  backend_id := ""
  backend_instances := 0
  partition := ""
  domain := ""
  display_app_id := "foo"
  app_hostname := "localhost:8080"
  ac_hostname := "ADMIN_CONSOLE_NOT_AVAILABLE_FOR_SDK"
  sdk_dir := ""
  app_dir := ""
  username := ""
  password := ""
  appcfg_flags := ""

/-- A one-file file system holding a pre-existing `backends.yaml`. -/
def sampleBackendsFS : FS :=
  [(pathJoin "/app" "backends.yaml", "backends:\n- name: old\n")]

/-- Original `app.yaml` lines used by the patch round-trip witness. -/
def sampleAppYamlLines : List String :=
  ["application: original-app-id", "version: 1"]

/-- A one-file file system holding the original `app.yaml`. -/
def sampleAppYamlFS : FS :=
  [(pathJoin "/app" "app.yaml", mkContent sampleAppYamlLines)]

lemma check4_ok {c : Config} (h1 : c.app_dir ≠ "") (h2 : c.sdk_dir ≠ "")
    (h3 : c.username ≠ "") (h4 : c.password ≠ "") :
    check_required_config_attr c
      ["app_dir", "sdk_dir", "username", "password"] = .ok () := by
  simp [check_required_config_attr, Config.getAttr, h1, h2, h3, h4]

lemma check4_ok_inv {c : Config}
    (hc : check_required_config_attr c
      ["app_dir", "sdk_dir", "username", "password"] = .ok ()) :
    c.app_dir ≠ "" ∧ c.sdk_dir ≠ "" ∧ c.username ≠ "" ∧ c.password ≠ "" := by
  by_cases h1 : c.app_dir = ""
  · simp [check_required_config_attr, Config.getAttr, h1] at hc
  by_cases h2 : c.sdk_dir = ""
  · simp [check_required_config_attr, Config.getAttr, h1, h2] at hc
  by_cases h3 : c.username = ""
  · simp [check_required_config_attr, Config.getAttr, h1, h2, h3] at hc
  by_cases h4 : c.password = ""
  · simp [check_required_config_attr, Config.getAttr, h1, h2, h3, h4] at hc
  exact ⟨h1, h2, h3, h4⟩

lemma check2_ok {c : Config} (h1 : c.app_dir ≠ "") (h2 : c.username ≠ "") :
    check_required_config_attr c ["app_dir", "username"] = .ok () := by
  simp [check_required_config_attr, Config.getAttr, h1, h2]

/-- C3: the environment classifier sends `"localhost"` itself and every
hostname starting with `"localhost"` to `False` (local), every other
string to `True` (remote), and raises `TypeError` on non-string input. -/
theorem is_cluster_appserver_classification :
    (∀ s : String, s = "localhost" ∨ pyStartsWith s "localhost" = true →
      is_cluster_appserver (.str s) = .ok false) ∧
    (∀ s : String, s ≠ "localhost" → pyStartsWith s "localhost" = false →
      is_cluster_appserver (.str s) = .ok true) ∧
    (∀ v : PyVal, (∀ s : String, v ≠ .str s) →
      is_cluster_appserver v =
        .error (.typeError ("\"cluster_hostname\" must be a string, not " ++
          v.typeName))) := by
  refine ⟨?_, ?_, ?_⟩
  · intro s h
    rcases h with h | h
    · subst h; rfl
    · simp [is_cluster_appserver, h]
  · intro s _ h
    simp [is_cluster_appserver, h]
  · intro v h
    cases v with
    | str s => exact absurd rfl (h s)
    | int n => rfl
    | none => rfl

/-- Witness for C3 at `"localhost:8080"`, `"example.com"` and the
non-string `5`. -/
theorem is_cluster_appserver_classification_witness :
    is_cluster_appserver (.str "localhost:8080") = .ok false ∧
    is_cluster_appserver (.str "example.com") = .ok true ∧
    is_cluster_appserver (.int 5) =
      .error (.typeError
        "\"cluster_hostname\" must be a string, not <type 'int'>") :=
  ⟨is_cluster_appserver_classification.1 "localhost:8080"
      (Or.inr (by decide)),
   is_cluster_appserver_classification.2.1 "example.com" (by decide)
      (by decide),
   is_cluster_appserver_classification.2.2 (.int 5) (fun s => by simp)⟩

/-- C9: an application hostname with more than one colon makes the
local-server argument builder fail with `ValueError`, so `run` spawns no
process (`devAppServerRun` returns no spawn request). -/
theorem get_argv_multi_colon_value_error :
    ∀ (c : Config) (options : List String) (clear_datastore : Bool),
      c.app_hostname.data.count ':' > 1 →
      devAppServerRun c options clear_datastore =
        .error (.valueError ("Expected at most 1 colon in " ++
          "config.app_hostname: \"" ++ c.app_hostname ++ "\"")) := by
  intro c options cd h
  unfold devAppServerRun get_argv
  rw [if_pos h]

/-- Witness for C9 at hostname `"localhost:80:90"`. -/
theorem get_argv_multi_colon_value_error_witness :
    devAppServerRun sampleBadHostConfig [] true =
      .error (.valueError ("Expected at most 1 colon in " ++
        "config.app_hostname: \"" ++ sampleBadHostConfig.app_hostname ++
        "\"")) :=
  get_argv_multi_colon_value_error sampleBadHostConfig [] true (by decide)

/-- C10: with a non-empty backend id and `args = None`,
`run_appcfg_with_auth` raises `TypeError` at the `config.app_dir in args`
membership test instead of building the backend argument vector; passing
an explicit empty list instead succeeds. -/
theorem run_appcfg_backend_args_none :
    ∀ (c : Config) (action : String) (options : Option (List String)),
      c.backend_id ≠ "" →
      c.app_dir ≠ "" → c.sdk_dir ≠ "" → c.username ≠ "" → c.password ≠ "" →
      run_appcfg_with_auth c action options Option.none =
        .error (.typeError "argument of type 'NoneType' is not iterable") ∧
      ∃ v, run_appcfg_with_auth c action options (some []) = .ok v := by
  intro c action options hb h1 h2 h3 h4
  constructor
  · unfold run_appcfg_with_auth
    rw [check4_ok h1 h2 h3 h4]
    simp [hb]
  · refine ⟨?_, ?_⟩
    · exact ([pathJoin c.sdk_dir "appcfg.py", "--no_cookies",
        "--email=" ++ c.username, "--passin"] ++
        (if c.app_id ≠ "" then ["--application=" ++ c.app_id] else []) ++
        (if c.appcfg_flags ≠ "" then pySplitOn c.appcfg_flags ' ' else []) ++
        (if c.ac_hostname ≠ "" then ["--server=" ++ c.ac_hostname] else []) ++
        (match options with
         | some l => if l ≠ [] then l else []
         | Option.none => []) ++
        ["backends", c.app_dir, action], c.password)
    · unfold run_appcfg_with_auth
      rw [check4_ok h1 h2 h3 h4]
      simp [hb]

/-- Witness for C10 on a backend configuration. -/
theorem run_appcfg_backend_args_none_witness :
    run_appcfg_with_auth sampleBackendConfig "rollback" Option.none
        Option.none =
      .error (.typeError "argument of type 'NoneType' is not iterable") ∧
    ∃ v, run_appcfg_with_auth sampleBackendConfig "rollback" Option.none
        (some []) = .ok v :=
  run_appcfg_backend_args_none sampleBackendConfig "rollback" Option.none
    (by decide) (by decide) (by decide) (by decide) (by decide)

/-- C7: `run_appcfg_with_auth` raises `ValueError` naming the first
missing (empty) field among application directory, SDK directory,
username, password before producing a spawn request; `update_app`
likewise for application directory and username, before any tool
invocation (empty trace). -/
theorem validation_before_spawn :
    (∀ (c : Config) (action : String) (options args : Option (List String)),
      (c.app_dir = "" →
        run_appcfg_with_auth c action options args =
          .error (.valueError "\"config.app_dir\" has to be set.")) ∧
      (c.app_dir ≠ "" → c.sdk_dir = "" →
        run_appcfg_with_auth c action options args =
          .error (.valueError "\"config.sdk_dir\" has to be set.")) ∧
      (c.app_dir ≠ "" → c.sdk_dir ≠ "" → c.username = "" →
        run_appcfg_with_auth c action options args =
          .error (.valueError "\"config.username\" has to be set.")) ∧
      (c.app_dir ≠ "" → c.sdk_dir ≠ "" → c.username ≠ "" →
        c.password = "" →
        run_appcfg_with_auth c action options args =
          .error (.valueError "\"config.password\" has to be set."))) ∧
    (∀ (c : Config) (oracle : AppcfgOracle) (r : Nat),
      (c.app_dir = "" →
        update_app c oracle r =
          (.error (.valueError "\"config.app_dir\" has to be set."), [])) ∧
      (c.app_dir ≠ "" → c.username = "" →
        update_app c oracle r =
          (.error (.valueError "\"config.username\" has to be set."),
           []))) := by
  constructor
  · intro c action options args
    refine ⟨?_, ?_, ?_, ?_⟩
    · intro h
      simp [run_appcfg_with_auth, check_required_config_attr,
        Config.getAttr, h]
    · intro h1 h
      simp [run_appcfg_with_auth, check_required_config_attr,
        Config.getAttr, h1, h]
    · intro h1 h2 h
      simp [run_appcfg_with_auth, check_required_config_attr,
        Config.getAttr, h1, h2, h]
    · intro h1 h2 h3 h
      simp [run_appcfg_with_auth, check_required_config_attr,
        Config.getAttr, h1, h2, h3, h]
  · intro c oracle r
    constructor
    · intro h
      simp [update_app, check_required_config_attr, Config.getAttr, h]
    · intro h1 h
      simp [update_app, check_required_config_attr, Config.getAttr, h1, h]

/-- Witness for C7: missing application directory and missing username. -/
theorem validation_before_spawn_witness :
    run_appcfg_with_auth { sampleConfig with app_dir := "" } "update"
        Option.none Option.none =
      .error (.valueError "\"config.app_dir\" has to be set.") ∧
    update_app { sampleConfig with username := "" } sampleConflictOracle
        2 =
      (.error (.valueError "\"config.username\" has to be set."), []) :=
  ⟨(validation_before_spawn.1 { sampleConfig with app_dir := "" } "update"
      Option.none Option.none).1 (by decide),
   ((validation_before_spawn.2 { sampleConfig with username := "" }
      sampleConflictOracle 2).2 (by decide) (by decide))⟩

/-- C8: every successful `run_appcfg_with_auth` argument vector
carries the `--passin` flag; the password travels as the stdin payload,
never inside the vector — the vector is independent of the password
(replacing the password changes the stdin payload only). -/
theorem run_appcfg_password_via_stdin :
    ∀ (c : Config) (action : String) (options args : Option (List String))
      (argv : List String) (payload : String),
      run_appcfg_with_auth c action options args = .ok (argv, payload) →
      "--passin" ∈ argv ∧ payload = c.password ∧
      (∀ p : String, p ≠ "" →
        run_appcfg_with_auth { c with password := p } action options args =
          .ok (argv, p)) := by
  intro c action options args argv payload h
  have hck : check_required_config_attr c
      ["app_dir", "sdk_dir", "username", "password"] = .ok () := by
    rcases hc : check_required_config_attr c
        ["app_dir", "sdk_dir", "username", "password"] with e | u
    · simp only [run_appcfg_with_auth, hc] at h
      exact absurd h (by simp)
    · cases u; rfl
  obtain ⟨h1, h2, h3, h4⟩ := check4_ok_inv hck
  have hck2 : ∀ p : String, p ≠ "" →
      check_required_config_attr { c with password := p }
        ["app_dir", "sdk_dir", "username", "password"] = .ok () := by
    intro p hp
    exact check4_ok h1 h2 h3 hp
  simp only [run_appcfg_with_auth, hck] at h
  by_cases hb : c.backend_id = ""
  · rw [if_pos hb] at h
    rw [Except.ok.injEq, Prod.mk.injEq] at h
    obtain ⟨ha, hp⟩ := h
    subst ha
    subst hp
    refine ⟨by simp, rfl, ?_⟩
    intro p hp
    simp only [run_appcfg_with_auth, hck2 p hp]
    simp [hb]
  · rw [if_neg hb] at h
    cases args with
    | none => exact absurd h (by simp)
    | some l =>
      rw [Except.ok.injEq, Prod.mk.injEq] at h
      obtain ⟨ha, hp⟩ := h
      subst ha
      subst hp
      refine ⟨by simp, rfl, ?_⟩
      intro p hp
      simp only [run_appcfg_with_auth, hck2 p hp]
      simp [hb]

/-- Witness for C8 on a concrete frontend update invocation. -/
theorem run_appcfg_password_via_stdin_witness :
    "--passin" ∈ ["/sdk/appcfg.py", "--no_cookies",
      "--email=alice@example.com", "--passin", "--application=test-app",
      "--server=appengine.google.com", "update", "/app"] ∧
    "secret" = sampleConfig.password ∧
    run_appcfg_with_auth { sampleConfig with password := "hunter2" }
        "update" Option.none (some ["/app"]) =
      .ok (["/sdk/appcfg.py", "--no_cookies",
        "--email=alice@example.com", "--passin", "--application=test-app",
        "--server=appengine.google.com", "update", "/app"], "hunter2") := by
  have h := run_appcfg_password_via_stdin sampleConfig "update"
    Option.none (some ["/app"])
    ["/sdk/appcfg.py", "--no_cookies", "--email=alice@example.com",
      "--passin", "--application=test-app",
      "--server=appengine.google.com", "update", "/app"] "secret" rfl
  exact ⟨h.1, h.2.1, h.2.2 "hunter2" (by decide)⟩

/-- C4: `Config.__init__` derives its fields purely: `"s~alpha:bar"`
splits into partition `"s"`, domain `"alpha"`, display id `"bar"`, while
`"foo"` leaves partition and domain empty and the display id identical;
for a remote cluster hostname the application hostname is
`backend.display.cluster` with a backend id and `display.cluster`
without; for a local cluster hostname it is the cluster hostname verbatim
and the admin-console hostname is the "not available" sentinel. -/
theorem config_init_derivation :
    (∀ ch bid sd ad u pw ach fl : String, ∀ bin : Nat,
      (Config.init "s~alpha:bar" ch bid bin sd ad u pw ach fl).map
          Config.partition = .ok "s" ∧
      (Config.init "s~alpha:bar" ch bid bin sd ad u pw ach fl).map
          Config.domain = .ok "alpha" ∧
      (Config.init "s~alpha:bar" ch bid bin sd ad u pw ach fl).map
          Config.display_app_id = .ok "bar") ∧
    (∀ ch bid sd ad u pw ach fl : String, ∀ bin : Nat,
      (Config.init "foo" ch bid bin sd ad u pw ach fl).map
          Config.partition = .ok "" ∧
      (Config.init "foo" ch bid bin sd ad u pw ach fl).map
          Config.domain = .ok "" ∧
      (Config.init "foo" ch bid bin sd ad u pw ach fl).map
          Config.display_app_id = .ok "foo") ∧
    (∀ aid ch bid sd ad u pw ach fl : String, ∀ bin : Nat, ∀ cfg : Config,
      Config.init aid ch bid bin sd ad u pw ach fl = .ok cfg →
      (pyStartsWith ch "localhost" = false →
        (bid ≠ "" →
          cfg.app_hostname =
            bid ++ "." ++ cfg.display_app_id ++ "." ++ ch) ∧
        (bid = "" →
          cfg.app_hostname = cfg.display_app_id ++ "." ++ ch)) ∧
      (pyStartsWith ch "localhost" = true →
        cfg.app_hostname = ch ∧
        cfg.ac_hostname = NO_ADMIN_CONSOLE_ON_SDK)) := by
  refine ⟨?_, ?_, ?_⟩
  · intro ch bid sd ad u pw ach fl bin
    exact ⟨rfl, rfl, rfl⟩
  · intro ch bid sd ad u pw ach fl bin
    exact ⟨rfl, rfl, rfl⟩
  · intro aid ch bid sd ad u pw ach fl bin cfg h
    simp only [Config.init, is_cluster_appserver] at h
    split at h
    · exact absurd h (by simp)
    · split at h
      · exact absurd h (by simp)
      · rw [Except.ok.injEq] at h
        subst h
        constructor
        · intro hloc
          constructor
          · intro hbid
            simp [hloc, hbid]
          · intro hbid
            simp [hloc, hbid]
        · intro hloc
          exact ⟨by simp [hloc], by simp [hloc]⟩

/-- Witness for C4: app ids `"s~alpha:bar"`/`"foo"`, a remote cluster with
backend `"b1"`, and the local cluster `"localhost:8080"`. -/
theorem config_init_derivation_witness :
    (Config.init "s~alpha:bar" "appspot.com" "" 0 "" "" "" "" "" "").map
        Config.partition = .ok "s" ∧
    sampleDerivedRemote.app_hostname =
      "b1" ++ "." ++ sampleDerivedRemote.display_app_id ++ "." ++
        "example.com" ∧
    sampleDerivedLocal.app_hostname = "localhost:8080" ∧
    sampleDerivedLocal.ac_hostname = NO_ADMIN_CONSOLE_ON_SDK := by
  have hr := config_init_derivation.2.2 "foo" "example.com" "b1" "" "" ""
    "" "" "" 0 sampleDerivedRemote rfl
  have hl := config_init_derivation.2.2 "foo" "localhost:8080" "" "" "" ""
    "" "" "" 0 sampleDerivedLocal rfl
  refine ⟨(config_init_derivation.1 "appspot.com" "" "" "" "" "" "" "" 0).1,
    ?_, ?_, ?_⟩
  · exact ((hr.1 (by decide)).1 (by decide))
  · exact (hl.2 (by decide)).1
  · exact (hl.2 (by decide)).2

lemma trace_count (n : Nat) :
    ((List.replicate n ["update", "rollback"]).flatten).count "rollback" =
      n ∧
    ((List.replicate n ["update", "rollback"]).flatten).count "update" =
      n := by
  induction n with
  | zero => simp
  | succ m ih => simp [List.replicate_succ, ih.1, ih.2]

lemma update_loop_succ
    (shortUsername app_dir backend_id : String) (oracle : AppcfgOracle)
    (r k : Nat) (last : Option String × Option String)
    (hconf : conflictMatch shortUsername
      (oracle k "update" [app_dir]).1 = true)
    (herr : containsSub
      (oracle (k + 1) "rollback"
        (if backend_id = "" then [app_dir] else [backend_id])).1
      "Error" = false) :
    update_loop shortUsername app_dir backend_id oracle (r + 1) k last =
      ((update_loop shortUsername app_dir backend_id oracle r (k + 2)
          (some (oracle (k + 1) "rollback"
            (if backend_id = "" then [app_dir] else [backend_id])).1,
           some (oracle (k + 1) "rollback"
            (if backend_id = "" then [app_dir] else [backend_id])).2)).1,
       "update" :: "rollback" ::
         (update_loop shortUsername app_dir backend_id oracle r (k + 2)
          (some (oracle (k + 1) "rollback"
            (if backend_id = "" then [app_dir] else [backend_id])).1,
           some (oracle (k + 1) "rollback"
            (if backend_id = "" then [app_dir] else [backend_id])).2)).2) := by
  simp [update_loop, hconf, herr]

lemma update_loop_all_conflict
    (shortUsername app_dir backend_id : String) (oracle : AppcfgOracle)
    (hupd : ∀ k, conflictMatch shortUsername
      (oracle k "update" [app_dir]).1 = true)
    (hrb : ∀ k, containsSub
      (oracle k "rollback"
        (if backend_id = "" then [app_dir] else [backend_id])).1
      "Error" = false) :
    ∀ (r k : Nat) (last : Option String × Option String),
      update_loop shortUsername app_dir backend_id oracle (r + 1) k last =
        (.ok (some (oracle (k + 2 * r + 1) "rollback"
            (if backend_id = "" then [app_dir] else [backend_id])).1,
          some (oracle (k + 2 * r + 1) "rollback"
            (if backend_id = "" then [app_dir] else [backend_id])).2),
         (List.replicate (r + 1) ["update", "rollback"]).flatten) := by
  intro r
  induction r with
  | zero =>
    intro k last
    simp [update_loop, hupd k, hrb (k + 1)]
  | succ n ih =>
    intro k last
    rw [update_loop_succ shortUsername app_dir backend_id oracle (n + 1) k
      last (hupd k) (hrb (k + 1))]
    rw [ih (k + 2)]
    rw [show k + 2 + 2 * n + 1 = k + 2 * (n + 1) + 1 from by omega]
    simp [List.replicate_succ]

/-- C1: with application directory and username set and a positive
retry budget `r`, if every update reports the conflict signature for the
short username and no rollback output contains `"Error"`, then
`update_app` invokes rollback exactly `r` times, returns without raising,
and yields the output captured from the last rollback. -/
theorem update_app_conflict_exhausts_budget :
    ∀ (c : Config) (oracle : AppcfgOracle) (r : Nat),
      c.app_dir ≠ "" → c.username ≠ "" → 0 < r →
      (∀ k, conflictMatch (shortUserOf c.username)
        (oracle k "update" [c.app_dir]).1 = true) →
      (∀ k, containsSub (oracle k "rollback"
        (if c.backend_id = "" then [c.app_dir] else [c.backend_id])).1
        "Error" = false) →
      update_app c oracle r =
        (.ok (some (oracle (2 * r - 1) "rollback"
            (if c.backend_id = "" then [c.app_dir]
             else [c.backend_id])).1,
          some (oracle (2 * r - 1) "rollback"
            (if c.backend_id = "" then [c.app_dir]
             else [c.backend_id])).2),
         (List.replicate r ["update", "rollback"]).flatten) ∧
      (update_app c oracle r).2.count "rollback" = r ∧
      (update_app c oracle r).2.count "update" = r := by
  intro c oracle r h1 h2 hr hupd hrb
  rcases r with _ | n
  · omega
  have hloop := update_loop_all_conflict (shortUserOf c.username)
    c.app_dir c.backend_id oracle hupd hrb n 0 (Option.none, Option.none)
  have happ : update_app c oracle (n + 1) =
      update_loop (shortUserOf c.username) c.app_dir
        c.backend_id oracle (n + 1) 0 (Option.none, Option.none) := by
    simp [update_app, check2_ok h1 h2]
  rw [show 2 * (n + 1) - 1 = 0 + 2 * n + 1 from by omega]
  rw [happ, hloop]
  exact ⟨rfl, (trace_count (n + 1)).1, (trace_count (n + 1)).2⟩

/-- Witness for C1: `sampleConfig`, a tool that always reports the
conflict for `alice` and whose rollback always succeeds, budget 2. -/
theorem update_app_conflict_exhausts_budget_witness :
    update_app sampleConfig sampleConflictOracle 2 =
      (.ok (some "rollback done", some ""),
       ["update", "rollback", "update", "rollback"]) ∧
    (update_app sampleConfig sampleConflictOracle 2).2.count "rollback" =
      2 ∧
    (update_app sampleConfig sampleConflictOracle 2).2.count "update" =
      2 := by
  exact update_app_conflict_exhausts_budget sampleConfig
    sampleConflictOracle 2 (by decide) (by decide) (by decide)
    (fun _ => (by decide : conflictMatch "alice" conflictText = true))
    (fun _ => (by decide : containsSub "rollback done" "Error" = false))

/-- C2: with application directory and username set and a positive
budget, a conflict on the first update followed by a rollback output
containing `"Error"` raises the rollback-failure error with that output
attached; a first update output containing `"Error"` but not matching the
conflict signature raises the update-failure error after exactly one
update invocation. -/
theorem update_app_error_raises :
    ∀ (c : Config) (oracle : AppcfgOracle) (r : Nat),
      c.app_dir ≠ "" → c.username ≠ "" → 0 < r →
      (conflictMatch (shortUserOf c.username)
          (oracle 0 "update" [c.app_dir]).1 = true →
        containsSub (oracle 1 "rollback"
          (if c.backend_id = "" then [c.app_dir] else [c.backend_id])).1
          "Error" = true →
        update_app c oracle r =
          (.error (.appcfgError ("Could not rollback: " ++
            (oracle 1 "rollback"
              (if c.backend_id = "" then [c.app_dir]
               else [c.backend_id])).1)),
           ["update", "rollback"])) ∧
      (conflictMatch (shortUserOf c.username)
          (oracle 0 "update" [c.app_dir]).1 = false →
        containsSub (oracle 0 "update" [c.app_dir]).1 "Error" = true →
        update_app c oracle r =
          (.error (.appcfgError ("Could not update : " ++
            (oracle 0 "update" [c.app_dir]).1)), ["update"])) := by
  intro c oracle r h1 h2 hr
  rcases r with _ | n
  · omega
  have happ : update_app c oracle (n + 1) =
      update_loop (shortUserOf c.username) c.app_dir
        c.backend_id oracle (n + 1) 0 (Option.none, Option.none) := by
    simp [update_app, check2_ok h1 h2]
  constructor
  · intro hconf herr
    rw [happ]
    simp only [update_loop]
    rw [hconf, herr]
    simp
  · intro hconf herr
    rw [happ]
    simp only [update_loop]
    rw [hconf, herr]
    simp

/-- Witness for C2: `sampleConfig` with a failing rollback mock and a
generic-error mock, budget 2. -/
theorem update_app_error_raises_witness :
    update_app sampleConfig sampleRollbackErrorOracle 2 =
      (.error (.appcfgError
        ("Could not rollback: " ++ "Error: rollback failed")),
       ["update", "rollback"]) ∧
    update_app sampleConfig sampleUpdateErrorOracle 2 =
      (.error (.appcfgError
        ("Could not update : " ++ "Error: update failed")), ["update"]) := by
  constructor
  · exact (update_app_error_raises sampleConfig sampleRollbackErrorOracle
      2 (by decide) (by decide) (by decide)).1 (by decide) (by decide)
  · exact (update_app_error_raises sampleConfig sampleUpdateErrorOracle
      2 (by decide) (by decide) (by decide)).2 (by decide) (by decide)

lemma FS.read_write_self (fs : FS) (p content : String) :
    (fs.write p content).read p = some content := by
  simp [FS.write, FS.read]

lemma FS.read_write_ne (fs : FS) {p q : String} (content : String)
    (h : p ≠ q) : (fs.write p content).read q = fs.read q := by
  simp [FS.write, FS.read, h]

lemma FS.read_remove_self (fs : FS) (p : String) :
    (fs.remove p).read p = Option.none := by
  induction fs with
  | nil => rfl
  | cons e rest ih =>
    rcases e with ⟨q, content⟩
    by_cases h : q = p
    · simpa [FS.remove, List.filter_cons, h] using ih
    · simpa [FS.remove, List.filter_cons, h, FS.read] using ih

lemma FS.read_remove_ne (fs : FS) {p q : String} (h : p ≠ q) :
    (fs.remove p).read q = fs.read q := by
  induction fs with
  | nil => rfl
  | cons e rest ih =>
    rcases e with ⟨a, content⟩
    by_cases ha : a = p
    · subst ha
      simpa [FS.remove, List.filter_cons, FS.read, h] using ih
    · by_cases haq : a = q
      · simp [FS.remove, List.filter_cons, FS.read, ha, haq, Ne.symm h]
      · simpa [FS.remove, List.filter_cons, FS.read, ha, haq] using ih

lemma pathJoin_ne {x y : String} (d : String)
    (hx : pyStartsWith x "/" = false) (hy : pyStartsWith y "/" = false)
    (hlen : x.length ≠ y.length) : pathJoin d x ≠ pathJoin d y := by
  intro heq
  apply hlen
  simp only [pathJoin, hx, hy, Bool.false_eq_true, if_false] at heq
  by_cases hd : (d = "" || pyEndsWith d "/") = true
  · rw [if_pos hd, if_pos hd] at heq
    have := congrArg String.length heq
    simp only [String.length_append] at this
    omega
  · rw [if_neg hd, if_neg hd] at heq
    have := congrArg String.length heq
    simp only [String.length_append] at this
    omega

/-- C5: for a configuration with a backend id whose active
`backends.yaml` exists, creating then restoring the backend descriptor
leaves the active file bit-identical to its pre-creation content and
leaves no backup file; restoring with no backup present is an exact
no-op, safe even if create was never called. -/
theorem backends_yaml_roundtrip :
    (∀ (c : Config) (fs : FS) (content : String),
      c.backend_id ≠ "" →
      fs.read (pathJoin c.app_dir "backends.yaml") = some content →
      (restore_backends_yaml c (create_backends_yaml c fs)).read
          (pathJoin c.app_dir "backends.yaml") = some content ∧
      (restore_backends_yaml c (create_backends_yaml c fs)).read
          (pathJoin c.app_dir BACKENDS_YAML_BACKUP) = Option.none) ∧
    (∀ (c : Config) (fs : FS),
      fs.read (pathJoin c.app_dir BACKENDS_YAML_BACKUP) = Option.none →
      restore_backends_yaml c fs = fs) := by
  have hne : ∀ d : String,
      pathJoin d "backends.yaml" ≠ pathJoin d BACKENDS_YAML_BACKUP :=
    fun d => pathJoin_ne d (by decide) (by decide) (by decide)
  constructor
  · intro c fs content _ hread
    have hbak : (create_backends_yaml c fs).read
        (pathJoin c.app_dir BACKENDS_YAML_BACKUP) = some content := by
      simp only [create_backends_yaml, hread]
      rw [FS.read_write_ne _ _ (hne c.app_dir)]
      exact FS.read_write_self _ _ _
    have hrest : restore_backends_yaml c (create_backends_yaml c fs) =
        ((create_backends_yaml c fs).write
          (pathJoin c.app_dir "backends.yaml") content).remove
          (pathJoin c.app_dir BACKENDS_YAML_BACKUP) := by
      simp only [restore_backends_yaml, hbak]
    constructor
    · rw [hrest, FS.read_remove_ne _ (Ne.symm (hne c.app_dir))]
      exact FS.read_write_self _ _ _
    · rw [hrest]
      exact FS.read_remove_self _ _
  · intro c fs hnone
    simp only [restore_backends_yaml, hnone]

/-- Witness for C5 on a concrete backend configuration and a one-file
file system. -/
theorem backends_yaml_roundtrip_witness :
    (restore_backends_yaml sampleBackendConfig
        (create_backends_yaml sampleBackendConfig sampleBackendsFS)).read
        (pathJoin "/app" "backends.yaml") =
      some "backends:\n- name: old\n" ∧
    (restore_backends_yaml sampleBackendConfig
        (create_backends_yaml sampleBackendConfig sampleBackendsFS)).read
        (pathJoin "/app" BACKENDS_YAML_BACKUP) = Option.none ∧
    restore_backends_yaml sampleBackendConfig sampleBackendsFS =
      sampleBackendsFS := by
  have h := backends_yaml_roundtrip.1 sampleBackendConfig sampleBackendsFS
    "backends:\n- name: old\n" (by decide) (by decide)
  exact ⟨h.1, h.2,
    backends_yaml_roundtrip.2 sampleBackendConfig sampleBackendsFS
      (by decide)⟩

lemma isPrefixOf_append_newline :
    ∀ (pat l : List Char), '\n' ∉ pat →
      pat.isPrefixOf (l ++ ['\n']) = pat.isPrefixOf l := by
  intro pat
  induction pat with
  | nil => intro l _; simp [List.isPrefixOf]
  | cons p ps ih =>
    intro l hpat
    have hp : p ≠ '\n' := fun h => hpat (by simp [h])
    have hps : '\n' ∉ ps := fun h => hpat (by simp [h])
    cases l with
    | nil => simp [List.isPrefixOf, hp]
    | cons x xs => simp [List.isPrefixOf, ih xs hps]

lemma dropWhile_newline_eq_self {l : List Char} (h : '\n' ∉ l) :
    l.dropWhile (fun c => c = '\n') = l := by
  cases l with
  | nil => rfl
  | cons x xs =>
    have hx : x ≠ '\n' := fun hh => h (by simp [hh])
    simp [List.dropWhile_cons, hx]

lemma stripNL_append_newline :
    ∀ l : List Char, '\n' ∉ l → stripNL (l ++ ['\n']) = l := by
  intro l h
  cases l with
  | nil => rfl
  | cons x xs =>
    have hx : x ≠ '\n' := fun hh => h (by simp [hh])
    have hxs : '\n' ∉ xs := fun hh => h (by simp [hh])
    have hmem : '\n' ∉ xs.reverse ++ [x] := by
      intro hm
      rcases List.mem_append.mp hm with hm | hm
      · exact hxs (List.mem_reverse.mp hm)
      · simp at hm
        exact hx hm.symm
    simp [stripNL, List.dropWhile_cons, hx,
      dropWhile_newline_eq_self hmem]

lemma pySplitLines_append :
    ∀ (l : List Char), '\n' ∉ l → ∀ rest : List Char,
      pySplitLines (l ++ '\n' :: rest) =
        (l ++ ['\n']) :: pySplitLines rest := by
  intro l
  induction l with
  | nil => intro _ rest; simp [pySplitLines]
  | cons x xs ih =>
    intro h rest
    have hx : x ≠ '\n' := fun hh => h (by simp [hh])
    have hxs : '\n' ∉ xs := fun hh => h (by simp [hh])
    simp [pySplitLines, hx, ih hxs rest]

lemma patchChars_flatten :
    ∀ (a : List Char) (ls : List String), (∀ l ∈ ls, '\n' ∉ l.data) →
      ((pySplitLines ((ls.map (fun l => l.data ++ ['\n'])).flatten)).map
        (patchLineChars a)).flatten =
      (ls.map (fun l =>
        (if ("application:".data).isPrefixOf l.data then
          "application: ".data ++ a
        else l.data) ++ ['\n'])).flatten := by
  intro a ls
  induction ls with
  | nil => intro _; rfl
  | cons l rest ih =>
    intro h
    have hl : '\n' ∉ l.data := h l (List.mem_cons_self _ _)
    have hrest : ∀ x ∈ rest, '\n' ∉ x.data :=
      fun x hx => h x (List.mem_cons_of_mem _ hx)
    simp only [List.map_cons, List.flatten_cons]
    rw [List.append_assoc, List.singleton_append,
      pySplitLines_append l.data hl]
    simp only [List.map_cons, List.flatten_cons]
    rw [ih hrest]
    congr 1
    unfold patchLineChars
    rw [isPrefixOf_append_newline "application:".data l.data (by decide)]
    by_cases hp : ("application:".data).isPrefixOf l.data = true
    · rw [if_pos hp, if_pos hp]
    · rw [if_neg hp, if_neg hp, stripNL_append_newline l.data hl]

lemma patchAppYaml_mkContent (app_id : String) (ls : List String)
    (h : ∀ l ∈ ls, '\n' ∉ l.data) :
    patchAppYaml app_id (mkContent ls) =
      mkContent (ls.map (pyPatchLine app_id)) := by
  show String.mk (((pySplitLines
      ((ls.map (fun l => l.data ++ ['\n'])).flatten)).map
      (patchLineChars app_id.data)).flatten) =
    String.mk (((ls.map (pyPatchLine app_id)).map
      (fun l => l.data ++ ['\n'])).flatten)
  congr 1
  rw [patchChars_flatten app_id.data ls h, List.map_map]
  congr 1
  apply List.map_congr_left
  intro l _
  simp only [Function.comp, pyPatchLine]
  by_cases hp : ("application:".data).isPrefixOf l.data = true
  · simp [hp, String.data_append]
  · simp [hp]

/-- C6: patching `app.yaml` rewrites exactly the `application:`
declaration line to the configured id, terminator-normalises, and backs
up the original; restoring reproduces the original content bit-exactly
and removes the backup file. -/
theorem app_yaml_patch_roundtrip :
    ∀ (c : Config) (fs : FS) (ls : List String),
      (∀ l ∈ ls, '\n' ∉ l.data) →
      fs.read (pathJoin c.app_dir "app.yaml") = some (mkContent ls) →
      ∃ fs1 : FS, replace_app_yaml c fs = some fs1 ∧
        fs1.read (pathJoin c.app_dir APP_YAML_BACKUP) =
          some (mkContent ls) ∧
        fs1.read (pathJoin c.app_dir "app.yaml") =
          some (mkContent (ls.map (pyPatchLine c.app_id))) ∧
        ∃ fs2 : FS, restore_app_yaml c fs1 = some fs2 ∧
          fs2.read (pathJoin c.app_dir "app.yaml") =
            some (mkContent ls) ∧
          fs2.read (pathJoin c.app_dir APP_YAML_BACKUP) =
            Option.none := by
  intro c fs ls hls hread
  have hne : pathJoin c.app_dir "app.yaml" ≠
      pathJoin c.app_dir APP_YAML_BACKUP :=
    pathJoin_ne c.app_dir (by decide) (by decide) (by decide)
  refine ⟨(fs.write (pathJoin c.app_dir APP_YAML_BACKUP)
      (mkContent ls)).write (pathJoin c.app_dir "app.yaml")
      (patchAppYaml c.app_id (mkContent ls)), ?_, ?_, ?_, ?_⟩
  · simp only [replace_app_yaml, hread]
  · rw [FS.read_write_ne _ _ hne]
    exact FS.read_write_self _ _ _
  · rw [FS.read_write_self, patchAppYaml_mkContent c.app_id ls hls]
  · have hP : ((fs.write (pathJoin c.app_dir APP_YAML_BACKUP)
        (mkContent ls)).write (pathJoin c.app_dir "app.yaml")
        (patchAppYaml c.app_id (mkContent ls))).read
        (pathJoin c.app_dir "app.yaml") =
        some (patchAppYaml c.app_id (mkContent ls)) :=
      FS.read_write_self _ _ _
    have hB : ((fs.write (pathJoin c.app_dir APP_YAML_BACKUP)
        (mkContent ls)).write (pathJoin c.app_dir "app.yaml")
        (patchAppYaml c.app_id (mkContent ls))).read
        (pathJoin c.app_dir APP_YAML_BACKUP) = some (mkContent ls) := by
      rw [FS.read_write_ne _ _ hne]
      exact FS.read_write_self _ _ _
    refine ⟨((((fs.write (pathJoin c.app_dir APP_YAML_BACKUP)
        (mkContent ls)).write (pathJoin c.app_dir "app.yaml")
        (patchAppYaml c.app_id (mkContent ls))).remove
        (pathJoin c.app_dir "app.yaml")).write
        (pathJoin c.app_dir "app.yaml") (mkContent ls)).remove
        (pathJoin c.app_dir APP_YAML_BACKUP), ?_, ?_, ?_⟩
    · simp only [restore_app_yaml, FS.pathExists, hP, hB,
        Option.isSome_some, if_true]
    · rw [FS.read_remove_ne _ (Ne.symm hne)]
      exact FS.read_write_self _ _ _
    · exact FS.read_remove_self _ _

/-- Witness for C6 on a concrete two-line `app.yaml`. -/
theorem app_yaml_patch_roundtrip_witness :
    ∃ fs1 : FS,
      replace_app_yaml sampleLocalConfig sampleAppYamlFS = some fs1 ∧
      fs1.read (pathJoin "/app" APP_YAML_BACKUP) =
        some (mkContent sampleAppYamlLines) ∧
      fs1.read (pathJoin "/app" "app.yaml") =
        some (mkContent (sampleAppYamlLines.map (pyPatchLine "test-app"))) ∧
      ∃ fs2 : FS, restore_app_yaml sampleLocalConfig fs1 = some fs2 ∧
        fs2.read (pathJoin "/app" "app.yaml") =
          some (mkContent sampleAppYamlLines) ∧
        fs2.read (pathJoin "/app" APP_YAML_BACKUP) = Option.none :=
  app_yaml_patch_roundtrip sampleLocalConfig sampleAppYamlFS
    sampleAppYamlLines (by decide) (by decide)

end Gaedriver
